import Mathlib

/-!
Verification development for the frida-tools compiler CLI front end
(`frida_tools/compiler.py`): a shallow embedding of the
`CompilerApplication` orchestration core, against which the testable
properties of the design specification are settled.

The embedding follows the source file `compiler.py`.  Collaborators that
live outside that file (the `Reactor`, the `ConsoleApplication` exit
machinery, and the `cli_formatting` helpers) are modelled from the
specification, and each such definition is marked as modelled.
-/

namespace FridaCompiler

/-- Parsed CLI options, mirroring the `argparse` namespace built by
`CompilerApplication._add_options`:
`module`, `-o` (output), `-w` (watch), `-S` (no-source-maps),
`-c` (compress), `-v` (verbose), `-F` (output-format),
`-B` (bundle-format), `-T` (type-check). -/
structure Options where
  module : String
  output : Option String
  watch : Bool
  no_source_maps : Bool
  compress : Bool
  verbose : Bool
  output_format : String
  bundle_format : String
  type_check : String
deriving DecidableEq, Repr

/-- `os.path.abspath` relative to the current working directory: absolute
paths are kept, relative ones are resolved against `cwd`. -/
def abspath (cwd p : String) : String :=
  if p.startsWith "/" then p else cwd ++ "/" ++ p

/-- The options dictionary handed to the engine
(`self._compiler_options` in `_initApp`). -/
structure CompilerOptions where
  project_root : String
  output_format : String
  bundle_format : String
  type_check : String
  source_maps : String
  compression : String
deriving DecidableEq, Repr

/-- The fields of `CompilerApplication` established by `_initApp`:
`self._module`, `self._output`, `self._mode`, `self._verbose`,
`self._compiler_options`, and `self._compilation_started` (timestamps are
modelled as naturals). -/
structure AppState where
  module : String
  output : Option String
  mode : String
  verbose : Bool
  compiler_options : CompilerOptions
  compilation_started : Option Nat
deriving DecidableEq, Repr

/-- `CompilerApplication` setup: resolves the module path, fixes
mode as `"watch"` or `"build"`, computes
`self._verbose = self._mode == "watch" or options.verbose`, and
assembles the compiler options. -/
def initApp (cwd : String) (options : Options) : AppState :=
  let mode := if options.watch then "watch" else "build"
  { module := abspath cwd options.module
  , output := options.output
  , mode := mode
  , verbose := (mode == "watch") || options.verbose
  , compiler_options :=
      { project_root := cwd
      , output_format := options.output_format
      , bundle_format := options.bundle_format
      , type_check := options.type_check
      , source_maps := if options.no_source_maps then "omitted" else "included"
      , compression := if options.compress then "terser" else "none" }
  , compilation_started := none }

/-- An observable side effect of the orchestration core: printing a line
(`self._print`), requesting a process exit code (`self._exit`), or
writing raw text to standard output (`sys.stdout.write`). -/
inductive Effect
  | printLine (s : String)
  | exit (code : Nat)
  | writeStdout (s : String)
deriving DecidableEq, Repr

/-- Modelled from the spec: `format_error` of `cli_formatting` (not under
`src/`) renders an error into a single human-readable display string. -/
def format_error (e : String) : String :=
  "error: " ++ e

/-- `CompilerApplication._on_fatal_error`: print the formatted error and
request exit code 1. -/
def on_fatal_error (e : String) : List Effect :=
  [Effect.printLine (format_error e), Effect.exit 1]

/-- CPython text-mode newline translation applied on write: with
`newline=None` every "\n" in the written text becomes the platform line
separator; with `newline=""` or `newline="\n"` no translation takes
place; any other explicit `newline` value replaces "\n" by that value. -/
def pyNewlineTranslate (newline : Option String) (linesep : String) (s : String) : String :=
  match newline with
  | none => s.replace "\n" linesep
  | some nl => if nl = "" ∨ nl = "\n" then s else s.replace "\n" nl

/-- Behaviour of the environment during `f.write(bundle)`: the write
either succeeds, or raises after `k` characters were written. -/
inductive WriteOutcome
  | ok
  | raiseAfter (k : Nat) (msg : String)
deriving DecidableEq, Repr

/-- Observable result of the scoped block
`with open(path, "w", encoding="utf-8", newline="\n") as f: f.write(bundle)`:
the keyword arguments of the `open` call, the file content after the
block, whether the handle was released, and the exception, if any. -/
structure FileOpResult where
  openMode : String
  encoding : String
  newlineArg : Option String
  fileContent : String
  handleClosed : Bool
  error : Option String
deriving DecidableEq, Repr

/-- The scoped file write of `_on_compiler_output`, over a file whose
previous content is `prev` on a platform whose line separator is
`linesep`.  Mode `"w"` truncates at open time, so the resulting content
is built from the written prefix alone, never from `prev`; the `with`
statement releases the handle on every exit path. -/
def withOpenWrite (linesep prev bundle : String) : WriteOutcome → FileOpResult
  | WriteOutcome.ok =>
      { openMode := "w", encoding := "utf-8", newlineArg := some "\n"
      , fileContent := pyNewlineTranslate (some "\n") linesep bundle
      , handleClosed := true, error := none }
  | WriteOutcome.raiseAfter k msg =>
      { openMode := "w", encoding := "utf-8", newlineArg := some "\n"
      , fileContent := pyNewlineTranslate (some "\n") linesep (bundle.take k)
      , handleClosed := true, error := some msg }

/-- Result of handling one "output" event: the emitted effects and, when
a file destination is configured, the result of the scoped file write. -/
structure OutputResult where
  effects : List Effect
  fileResult : Option FileOpResult
deriving DecidableEq, Repr

/-- `CompilerApplication._on_compiler_output`: with a configured file
destination (`self._output is not None`), write the bundle through the
scoped `open` block and route any raised exception to
`_on_fatal_error`; without one, write the bundle to standard output. -/
def on_compiler_output (outputDest : Option String) (linesep prev bundle : String)
    (w : WriteOutcome) : OutputResult :=
  match outputDest with
  | some _ =>
      let r := withOpenWrite linesep prev bundle w
      match r.error with
      | some e => { effects := on_fatal_error e, fileResult := some r }
      | none => { effects := [], fileResult := some r }
  | none => { effects := [Effect.writeStdout bundle], fileResult := none }

/-- Modelled from the spec: the exit-status bookkeeping of
`ConsoleApplication` and the Reactor (neither under `src/`): `_exit`
records the requested code and asks the reactor to stop; tasks already
scheduled still run, and the code recorded last is the process exit
code (0 when no exit was requested, the successful default). -/
def exitStep (acc : Nat) : Effect → Nat
  | Effect.exit c => c
  | _ => acc

/-- The process exit code resulting from a trace of effects: the code of
the last exit request, 0 (the successful default) when there is none. -/
def finalExitCode (trace : List Effect) : Nat :=
  trace.foldl exitStep 0

/-- UTF-8 byte sequence of a string: the byte-level payload a sink
receives. -/
def utf8Bytes (s : String) : List Nat :=
  s.toUTF8.toList.map (fun b => b.toNat)

/-- Byte content reaching standard output on an "output" delivery with
no file destination: `sys.stdout.write(bundle)`, the UTF-8 encoding of
the bundle with no newline translation. -/
def stdoutSinkBytes (bundle : String) : List Nat :=
  utf8Bytes bundle

/-- Outcome of the synchronous call into the engine's build or watch
entry point (`frida.Compiler.build` / `frida.Compiler.watch`, an
external capability): it returns normally or raises. -/
inductive EngineCallResult
  | ok
  | raises (msg : String)
deriving DecidableEq, Repr

/-- Result of `CompilerApplication._start`: effects emitted directly,
tasks scheduled on the reactor (identified with the effects they emit
when run), and whether the engine's continuous watch operation was
entered. -/
structure StartResult where
  directEffects : List Effect
  scheduledTasks : List (List Effect)
  enteredWatchOperation : Bool
deriving DecidableEq, Repr

/-- `CompilerApplication._start`: in build mode call the engine's
one-shot build operation and then request exit code 0; in watch mode
call the continuous watch operation.  When the synchronous call raises,
the exception is caught and an `_on_fatal_error` task is scheduled on
the reactor; the `_exit(0)` line is then never reached, and the watch
operation has not been entered. -/
def start (mode : String) (call : EngineCallResult) : StartResult :=
  if mode == "build" then
    match call with
    | EngineCallResult.ok =>
        { directEffects := [Effect.exit 0], scheduledTasks := []
        , enteredWatchOperation := false }
    | EngineCallResult.raises msg =>
        { directEffects := [], scheduledTasks := [on_fatal_error msg]
        , enteredWatchOperation := false }
  else
    match call with
    | EngineCallResult.ok =>
        { directEffects := [], scheduledTasks := []
        , enteredWatchOperation := true }
    | EngineCallResult.raises msg =>
        { directEffects := [], scheduledTasks := [on_fatal_error msg]
        , enteredWatchOperation := false }

/-- A diagnostic record produced by the engine: category, message text,
and an optional source location. -/
structure Diagnostic where
  category : String
  text : String
  file : Option String
  line : Option Nat
  column : Option Nat
deriving DecidableEq, Repr

/-- Modelled from the spec: path relativization against a base
directory, as used by the formatter. -/
def relpath (base p : String) : String :=
  if p.startsWith (base ++ "/") then p.drop (base.length + 1) else p

/-- Modelled from the spec: `format_diagnostic` of `cli_formatting` (not
under `src/`) renders one record as a human-readable line, with its
source location made relative to the given directory when present. -/
def format_diagnostic (diag : Diagnostic) (cwd : String) : String :=
  match diag.file with
  | some f => relpath cwd f ++ ": " ++ diag.category ++ ": " ++ diag.text
  | none => diag.category ++ ": " ++ diag.text

/-- `CompilerApplication._on_compiler_diagnostics`: format and print
each record in input order, relative to the current working directory;
the application state is not touched. -/
def on_compiler_diagnostics (st : AppState) (diagnostics : List Diagnostic)
    (cwd : String) : AppState × List Effect :=
  (st, diagnostics.map (fun diag => Effect.printLine (format_diagnostic diag cwd)))

/-- Modelled from the spec: `format_compiled` of `cli_formatting` (not
under `src/`) renders the "compiled … in Δt" report from the module
path, the directory, and the two endpoints of the timing span. -/
def format_compiled (module cwd : String) (timeStarted timeFinished : Nat) : String :=
  "compiled " ++ relpath cwd module ++ " in "
    ++ toString (timeFinished - timeStarted) ++ " ms"

/-- `CompilerApplication._on_compiler_finished`: when verbose, take the
finish time, assert that the recorded start time is present
(`assert self._compilation_started is not None`), and print the timing
report; when not verbose, do nothing, reading no timing state.  An
assertion failure is `none`. -/
def on_compiler_finished (verbose : Bool) (st : AppState) (now : Nat)
    (cwd : String) : Option (List Effect) :=
  if verbose then
    match st.compilation_started with
    | none => none
    | some t0 => some [Effect.printLine (format_compiled st.module cwd t0 now)]
  else some []

/-- The four engine event types delivered to the registered callbacks,
with their payloads; each is paired with the timer value at delivery. -/
inductive CEvent
  | starting
  | finished
  | output (bundle : String)
  | diagnostics (diags : List Diagnostic)
deriving DecidableEq, Repr

/-- A reactor task enqueued by an engine callback, named by the handler
that the task will invoke, with its payload. -/
inductive ScheduledTask
  | finishedTask
  | outputTask (bundle : String)
  | diagnosticsTask (diags : List Diagnostic)
  | printStartingTask
deriving DecidableEq, Repr

/-- A direct action an engine callback performs on the engine's own
thread, before any reactor task runs: enqueuing a task via
`self._reactor.schedule`, or mutating orchestrator state in place. -/
inductive DirectAction
  | scheduleTask (t : ScheduledTask)
  | setCompilationStarted (t : Nat)
deriving DecidableEq, Repr

/-- Whether a direct action is merely an enqueue via the reactor. -/
def DirectAction.isSchedule : DirectAction → Bool
  | DirectAction.scheduleTask _ => true
  | _ => false

/-- The callback registration performed at setup:
`compiler.on("starting", self._on_compiler_starting)` registers that
handler directly, while the "finished", "output" and "diagnostics"
callbacks are local wrappers whose whole body is one call to
`self._reactor.schedule`.  This gives the direct actions each callback
performs at engine-callback time, `now` being the timer value then:
`_on_compiler_starting` first sets `self._compilation_started = timer()`
and then, if verbose, schedules the printing task. -/
def engineCallback (verbose : Bool) (now : Nat) : CEvent → List DirectAction
  | CEvent.starting =>
      DirectAction.setCompilationStarted now ::
        (if verbose then [DirectAction.scheduleTask ScheduledTask.printStartingTask]
         else [])
  | CEvent.finished => [DirectAction.scheduleTask ScheduledTask.finishedTask]
  | CEvent.output bundle => [DirectAction.scheduleTask (ScheduledTask.outputTask bundle)]
  | CEvent.diagnostics ds =>
      [DirectAction.scheduleTask (ScheduledTask.diagnosticsTask ds)]

/-- State mutation caused by one delivered engine event: the "starting"
callback sets `self._compilation_started = timer()`; no other event
writes that field (the finished handler only reads it). -/
def applyEvent (st : AppState) : CEvent × Nat → AppState
  | (CEvent.starting, now) => { st with compilation_started := some now }
  | (_, _) => st

/-- Fold a sequence of delivered engine events (each paired with its
delivery time) over the application state. -/
def runEvents (st : AppState) (events : List (CEvent × Nat)) : AppState :=
  events.foldl applyEvent st

end FridaCompiler

namespace FridaCompiler

/-- C4: in watch mode, verbose reporting is forced on regardless of the
`-v` flag; in build mode it equals the flag.  The mode itself is
`"watch"` exactly when `-w` was given. -/
theorem verbose_policy (cwd : String) (options : Options) :
    ((initApp cwd options).mode = "watch" ↔ options.watch = true) ∧
    (options.watch = true → (initApp cwd options).verbose = true) ∧
    (options.watch = false → (initApp cwd options).verbose = options.verbose) := by
  unfold initApp
  cases options.watch <;> simp

/-- Witness for C4: a concrete watch-mode configuration with the verbose
flag off still reports verbosely, and the same configuration without
`-w` does not. -/
theorem verbose_policy_witness :
    (initApp "/proj"
      { module := "app.ts", output := none, watch := true, no_source_maps := false
      , compress := false, verbose := false, output_format := "unescaped"
      , bundle_format := "esm", type_check := "full" }).verbose = true :=
  (verbose_policy "/proj"
    { module := "app.ts", output := none, watch := true, no_source_maps := false
    , compress := false, verbose := false, output_format := "unescaped"
    , bundle_format := "esm", type_check := "full" }).2.1 rfl

/-- With `newline="\n"`, CPython applies no newline translation: the
written text reaches the file verbatim. -/
theorem pyNewlineTranslate_lf (linesep s : String) :
    pyNewlineTranslate (some "\n") linesep s = s := by
  have h : pyNewlineTranslate (some "\n") linesep s
      = if ("\n" : String) = "" ∨ ("\n" : String) = "\n" then s
        else s.replace "\n" "\n" := rfl
  rw [h, if_pos (Or.inr rfl)]

/-- C1: a delivery error while handling an "output" event is caught and
routed to the fatal-error path, which prints the formatted error and
requests exit code 1; whatever effects preceded it in the run (including
the `_exit(0)` of a successful build call), the process exit code after
such a failure is 1, never 0. -/
theorem output_write_failure_is_fatal (dest linesep prev bundle msg : String)
    (k : Nat) (pre : List Effect) :
    (on_compiler_output (some dest) linesep prev bundle
        (WriteOutcome.raiseAfter k msg)).effects
      = [Effect.printLine (format_error msg), Effect.exit 1] ∧
    finalExitCode (pre ++ (on_compiler_output (some dest) linesep prev bundle
        (WriteOutcome.raiseAfter k msg)).effects) = 1 := by
  refine ⟨rfl, ?_⟩
  simp [on_compiler_output, withOpenWrite, on_fatal_error, finalExitCode,
    List.foldl_append, exitStep]

/-- C2: the payload delivered to a configured file destination is
byte-identical to the payload delivered to standard output for the same
bundle, on every platform line separator: the sink choice never alters
the payload. -/
theorem sink_choice_preserves_payload (dest linesep prev bundle : String) :
    ((on_compiler_output (some dest) linesep prev bundle WriteOutcome.ok).fileResult.map
        (fun r => utf8Bytes r.fileContent)) = some (stdoutSinkBytes bundle) ∧
    (on_compiler_output none linesep prev bundle WriteOutcome.ok).effects
      = [Effect.writeStdout bundle] := by
  refine ⟨?_, rfl⟩
  simp [on_compiler_output, withOpenWrite, stdoutSinkBytes, pyNewlineTranslate_lf]

/-- C7: handling an "output" event with a configured file destination
opens the destination with UTF-8 encoding and normalized "\n" line
endings, writes the entire bundle on success, and releases the handle on
every exit path of the scoped block, including when the write raises. -/
theorem scoped_write_releases_handle (linesep prev bundle : String) (w : WriteOutcome) :
    (withOpenWrite linesep prev bundle w).encoding = "utf-8" ∧
    (withOpenWrite linesep prev bundle w).newlineArg = some "\n" ∧
    (withOpenWrite linesep prev bundle w).handleClosed = true ∧
    (w = WriteOutcome.ok →
      (withOpenWrite linesep prev bundle w).error = none ∧
      (withOpenWrite linesep prev bundle w).fileContent = bundle) := by
  cases w with
  | ok => exact ⟨rfl, rfl, rfl, fun _ => ⟨rfl, pyNewlineTranslate_lf linesep bundle⟩⟩
  | raiseAfter k msg => exact ⟨rfl, rfl, rfl, fun h => by cases h⟩

/-- Witness for C7: a concrete successful write delivers the whole
bundle with the handle released. -/
theorem scoped_write_releases_handle_witness :
    (withOpenWrite "\r\n" "old" "bundle text" WriteOutcome.ok).handleClosed = true ∧
    (withOpenWrite "\r\n" "old" "bundle text" WriteOutcome.ok).fileContent = "bundle text" :=
  ⟨(scoped_write_releases_handle "\r\n" "old" "bundle text" WriteOutcome.ok).2.2.1,
   ((scoped_write_releases_handle "\r\n" "old" "bundle text" WriteOutcome.ok).2.2.2 rfl).2⟩

/-- C10: the destination is opened in truncating `"w"` mode before any
bundle content is written, so after a failed write the file holds only
the prefix written so far: the previous contents are destroyed and not
restored — delivery is not atomic. -/
theorem truncating_write_not_atomic (linesep prev bundle msg : String) (k : Nat) :
    (withOpenWrite linesep prev bundle (WriteOutcome.raiseAfter k msg)).openMode = "w" ∧
    (withOpenWrite linesep prev bundle (WriteOutcome.raiseAfter k msg)).fileContent
      = bundle.take k ∧
    (withOpenWrite linesep prev bundle (WriteOutcome.raiseAfter k msg)).error = some msg ∧
    (prev ≠ bundle.take k →
      (withOpenWrite linesep prev bundle (WriteOutcome.raiseAfter k msg)).fileContent ≠ prev) := by
  have hcontent : (withOpenWrite linesep prev bundle
      (WriteOutcome.raiseAfter k msg)).fileContent = bundle.take k :=
    pyNewlineTranslate_lf linesep (bundle.take k)
  refine ⟨rfl, hcontent, rfl, fun h hc => h ?_⟩
  rw [← hc, hcontent]

/-- Witness for C10: a file holding "old contents" is truncated by the
failed delivery of "new bundle" that raises before any character is
written; the old contents are gone. -/
theorem truncating_write_not_atomic_witness :
    (withOpenWrite "\n" "old contents" "new bundle" (WriteOutcome.raiseAfter 0 "disk full")).fileContent
      ≠ "old contents" :=
  (truncating_write_not_atomic "\n" "old contents" "new bundle" "disk full" 0).2.2.2
    (by decide)

/-- A trace extended by print effects only keeps its exit code. -/
theorem foldl_exitStep_prints {α : Type} (f : α → String) (xs : List α) :
    ∀ acc : Nat, (xs.map (fun x => Effect.printLine (f x))).foldl exitStep acc = acc := by
  induction xs with
  | nil => intro acc; rfl
  | cons x rest ih => intro acc; exact ih acc

/-- C5: in both build and watch mode, when the initial synchronous call
into the engine raises, the exception is caught, no direct effect is
emitted, exactly one fatal-error task is scheduled on the reactor —
printing the formatted error and requesting exit code 1 — and the watch
operation is never entered. -/
theorem start_failure_schedules_fatal (mode msg : String) :
    (start mode (EngineCallResult.raises msg)).directEffects = [] ∧
    (start mode (EngineCallResult.raises msg)).scheduledTasks
      = [[Effect.printLine (format_error msg), Effect.exit 1]] ∧
    (start mode (EngineCallResult.raises msg)).enteredWatchOperation = false ∧
    finalExitCode (on_fatal_error msg) = 1 := by
  cases h : mode == "build" <;>
    simp [start, h, on_fatal_error, finalExitCode, exitStep]

/-- C6: in build mode with a successful engine call, `_start` directly
requests exit code 0 right after the build operation returns, and no
event handler requests any exit on a successful pass: the finished
handler, the diagnostics handler, and a successful output delivery all
emit no exit effect. -/
theorem build_success_exit_comes_from_start (verbose : Bool) (st st2 : AppState)
    (now : Nat) (cwd linesep prev bundle : String) (diags : List Diagnostic)
    (dest : Option String) (c : Nat) :
    (start "build" EngineCallResult.ok).directEffects = [Effect.exit 0] ∧
    (start "build" EngineCallResult.ok).scheduledTasks = [] ∧
    Effect.exit c ∉ (on_compiler_finished verbose st now cwd).getD [] ∧
    Effect.exit c ∉ (on_compiler_diagnostics st2 diags cwd).2 ∧
    Effect.exit c ∉ (on_compiler_output dest linesep prev bundle WriteOutcome.ok).effects := by
  refine ⟨rfl, rfl, ?_, ?_, ?_⟩
  · cases verbose with
    | false => simp [on_compiler_finished]
    | true =>
        cases h : st.compilation_started <;> simp [on_compiler_finished, h]
  · simp [on_compiler_diagnostics]
  · cases dest <;> simp [on_compiler_output, withOpenWrite]

/-- C8: handling a "diagnostics" event prints the formatted records in
exactly the input order (the i-th printed line is the rendering of the
i-th record, relativized against the working directory), leaves the
application state unchanged, and never changes the process exit code. -/
theorem diagnostics_printed_in_order (st : AppState) (diags : List Diagnostic)
    (cwd : String) (pre : List Effect) (i : Nat) :
    (on_compiler_diagnostics st diags cwd).1 = st ∧
    (on_compiler_diagnostics st diags cwd).2.get? i
      = (diags.get? i).map (fun d => Effect.printLine (format_diagnostic d cwd)) ∧
    finalExitCode (pre ++ (on_compiler_diagnostics st diags cwd).2)
      = finalExitCode pre := by
  refine ⟨rfl, ?_, ?_⟩
  · simp [on_compiler_diagnostics]
  · unfold finalExitCode on_compiler_diagnostics
    rw [List.foldl_append, foldl_exitStep_prints]

/-- C3, as stated, is false: the claim would require every engine
callback to perform schedule calls only, but the "starting" callback is
registered directly and mutates the compilation-start timestamp on the
engine's thread. -/
theorem starting_callback_mutates_directly :
    (engineCallback true 0 CEvent.starting).all DirectAction.isSchedule = false := by
  decide

/-- C3 amended: the "finished", "output" and "diagnostics" callbacks
perform nothing but `reactor.schedule` calls, so the handlers they name
run inside reactor-scheduled tasks; the "starting" callback, however,
first sets the compilation-start timestamp directly on the engine
thread and only delegates the printing task to the reactor (when
verbose). -/
theorem wrapped_callbacks_only_schedule (verbose : Bool) (now : Nat)
    (bundle : String) (ds : List Diagnostic) :
    (engineCallback verbose now CEvent.finished).all DirectAction.isSchedule = true ∧
    (engineCallback verbose now (CEvent.output bundle)).all DirectAction.isSchedule = true ∧
    (engineCallback verbose now (CEvent.diagnostics ds)).all DirectAction.isSchedule = true ∧
    (engineCallback verbose now CEvent.starting).head?
      = some (DirectAction.setCompilationStarted now) ∧
    ((engineCallback verbose now CEvent.starting).tail.all
        DirectAction.isSchedule) = true := by
  refine ⟨rfl, rfl, rfl, rfl, ?_⟩
  cases verbose <;> rfl

/-- Once the compilation-start timestamp is set, no later event unsets
it. -/
theorem runEvents_preserves_started (events : List (CEvent × Nat)) :
    ∀ st : AppState, st.compilation_started.isSome = true →
      ((runEvents st events).compilation_started).isSome = true := by
  induction events with
  | nil => intro st h; exact h
  | cons e rest ih =>
      intro st h
      refine ih (applyEvent st e) ?_
      rcases e with ⟨ev, t⟩
      cases ev <;> simp [applyEvent] <;> exact h

/-- After any event sequence containing a "starting" event, the
compilation-start timestamp is set. -/
theorem runEvents_started_isSome (events : List (CEvent × Nat)) :
    ∀ st : AppState, CEvent.starting ∈ events.map Prod.fst →
      ((runEvents st events).compilation_started).isSome = true := by
  induction events with
  | nil => intro st h; cases h
  | cons e rest ih =>
      intro st h
      rcases e with ⟨ev, t⟩
      cases ev with
      | starting =>
          exact runEvents_preserves_started rest _ (by simp [applyEvent])
      | finished =>
          refine ih (applyEvent st (CEvent.finished, t)) ?_
          simpa using h
      | output b =>
          refine ih (applyEvent st (CEvent.output b, t)) ?_
          simpa using h
      | diagnostics ds =>
          refine ih (applyEvent st (CEvent.diagnostics ds, t)) ?_
          simpa using h

/-- C9: in any run in which a "starting" event was delivered before the
"finished" handler runs, the recorded compilation-start timestamp is
present, so the assertion in the verbose branch of the finished handler
never fails; and in non-verbose mode the finished handler reads no
state at all — its result is the same for every application state. -/
theorem finished_assert_never_fails (cwd cwd2 : String) (options : Options)
    (pre : List (CEvent × Nat)) (verbose : Bool) (now : Nat)
    (h : CEvent.starting ∈ pre.map Prod.fst) :
    (on_compiler_finished verbose (runEvents (initApp cwd options) pre) now cwd2).isSome
      = true ∧
    (∀ st st' : AppState,
      on_compiler_finished false st now cwd2 = on_compiler_finished false st' now cwd2) := by
  refine ⟨?_, fun st st' => rfl⟩
  have hs := runEvents_started_isSome pre (initApp cwd options) h
  cases verbose with
  | false => rfl
  | true =>
      rcases Option.isSome_iff_exists.mp hs with ⟨t0, ht⟩
      simp [on_compiler_finished, ht]

/-- Witness for C9: a concrete pass that starts at time 5 and finishes
at time 9 has its timestamp recorded when the finished handler runs. -/
theorem finished_assert_never_fails_witness :
    (on_compiler_finished true
      (runEvents (initApp "/proj"
        { module := "app.ts", output := none, watch := false, no_source_maps := false
        , compress := false, verbose := true, output_format := "unescaped"
        , bundle_format := "esm", type_check := "full" })
        [(CEvent.starting, 5), (CEvent.diagnostics [], 7)]) 9 "/proj").isSome = true :=
  (finished_assert_never_fails "/proj" "/proj"
    { module := "app.ts", output := none, watch := false, no_source_maps := false
    , compress := false, verbose := true, output_format := "unescaped"
    , bundle_format := "esm", type_check := "full" }
    [(CEvent.starting, 5), (CEvent.diagnostics [], 7)] true 9 (by decide)).1

end FridaCompiler
